import Mathlib

/-!
Verification development for the BinMaster warehouse-bin repository.

The definitions below are a shallow embedding of the JavaScript/TypeScript
sources:
* `srv/warehouse-service.js` (S/4HANA-backed CAP service): `mapS4ToBin`,
  `mapBinToS4`, the `READ`/`CREATE`/`UPDATE` handlers and `getBinStatistics`;
* the local CAP service implementation (same `getBinStatistics` and the
  `before CREATE` / `before UPDATE` validation hooks);
* the frontend create screen `validateForm` / `handleSubmit`.

JavaScript machine-level conventions used in the embedding:
* numeric bin fields are non-negative integers (CDS type `Integer`, the
  frontend filters inputs to digit characters), modelled as `Nat`;
* `x.toString()` / `parseInt(x)` on such values are modelled by the decimal
  printer/parser `natToStr` / `strToNat` below;
* string truthiness (`s ? a : b`, `s || d`) is modelled by comparison with
  the empty string;
* timestamps (`new Date().toISOString()`, `CreationDate`) are opaque strings
  threaded through as a `now` parameter.
-/

namespace BinMaster

/-- Decimal digits of `n`, least significant first; the first argument is
structural fuel (`n` itself suffices, since `n / 10 < n` for `n > 0`). -/
def toDigitsAux : Nat → Nat → List Nat
  | 0, _ => []
  | _ + 1, 0 => []
  | fuel + 1, n + 1 => ((n + 1) % 10) :: toDigitsAux fuel ((n + 1) / 10)

/-- Decimal digits of `n`, least significant first (`[]` for `0`). -/
def toDigitsLE (n : Nat) : List Nat := toDigitsAux n n

/-- Value of a little-endian decimal digit list. -/
def ofDigitsLE : List Nat → Nat
  | [] => 0
  | d :: ds => d + 10 * ofDigitsLE ds

/-- A decimal digit as a character. -/
def digitToChar (d : Nat) : Char := Char.ofNat (48 + d)

/-- A character as a decimal digit (junk on non-digits, as irrelevant here). -/
def charToDigit (c : Char) : Nat := c.toNat - 48

/-- Model of JavaScript `n.toString()` on a non-negative integer. -/
def natToStr (n : Nat) : String :=
  if n = 0 then "0" else String.mk (((toDigitsLE n).map digitToChar).reverse)

/-- Model of JavaScript `parseInt(s)` on a decimal-digit string. -/
def strToNat (s : String) : Nat :=
  ofDigitsLE ((s.data.map charToDigit).reverse)

theorem ofDigitsLE_toDigitsAux (fuel : Nat) :
    ∀ n, n ≤ fuel → ofDigitsLE (toDigitsAux fuel n) = n := by
  induction fuel with
  | zero =>
    intro n hn
    interval_cases n
    rfl
  | succ fuel ih =>
    intro n hn
    match n with
    | 0 => rfl
    | m + 1 =>
      have hdiv : (m + 1) / 10 ≤ fuel := by
        have := Nat.div_lt_self (Nat.succ_pos m) (by norm_num : 1 < 10)
        omega
      simp only [toDigitsAux, ofDigitsLE, ih _ hdiv]
      omega

theorem ofDigitsLE_toDigitsLE (n : Nat) : ofDigitsLE (toDigitsLE n) = n :=
  ofDigitsLE_toDigitsAux n n (Nat.le_refl n)

theorem toDigitsAux_lt (fuel : Nat) :
    ∀ n, ∀ d ∈ toDigitsAux fuel n, d < 10 := by
  induction fuel with
  | zero => intro n d hd; simp [toDigitsAux] at hd
  | succ fuel ih =>
    intro n d hd
    match n with
    | 0 => simp [toDigitsAux] at hd
    | m + 1 =>
      simp only [toDigitsAux, List.mem_cons] at hd
      rcases hd with h | h
      · subst h; exact Nat.mod_lt _ (by norm_num)
      · exact ih _ _ h

theorem charToDigit_digitToChar {d : Nat} (h : d < 10) :
    charToDigit (digitToChar d) = d := by
  interval_cases d <;> decide

/-- Print-parse round trip: parsing the decimal rendering of `n` returns `n`. -/
theorem strToNat_natToStr (n : Nat) : strToNat (natToStr n) = n := by
  by_cases h0 : n = 0
  · subst h0; decide
  · simp only [natToStr, if_neg h0, strToNat]
    show ofDigitsLE (((((toDigitsLE n).map digitToChar).reverse).map charToDigit).reverse) = n
    rw [← List.map_reverse, List.reverse_reverse, List.map_map]
    have : (toDigitsLE n).map (charToDigit ∘ digitToChar) = (toDigitsLE n).map id := by
      apply List.map_congr_left
      intro d hd
      exact charToDigit_digitToChar (toDigitsAux_lt n n d hd)
    rw [this, List.map_id, ofDigitsLE_toDigitsLE]

theorem natToStr_ne_empty (n : Nat) : natToStr n ≠ "" := by
  by_cases h0 : n = 0
  · subst h0; decide
  · simp only [natToStr, if_neg h0]
    intro h
    have hdata : (((toDigitsLE n).map digitToChar).reverse) = [] := by
      have := congrArg String.data h
      simpa using this
    simp only [List.reverse_eq_nil_iff, List.map_eq_nil_iff] at hdata
    match n, h0 with
    | m + 1, _ =>
      simp [toDigitsLE, toDigitsAux] at hdata

/-- Model of JavaScript `String.prototype.trim()` (strips leading and
trailing whitespace). -/
def jsTrim (s : String) : String :=
  String.mk (((s.data.dropWhile Char.isWhitespace).reverse.dropWhile
    Char.isWhitespace).reverse)

/-- Split a character list on a separator character; JS
`"".split(c)` yields `[""]`, hence the accumulator shape. -/
def jsSplitAux (sep : Char) : List Char → List Char → List String
  | [], acc => [String.mk acc.reverse]
  | c :: cs, acc =>
    if c = sep then String.mk acc.reverse :: jsSplitAux sep cs []
    else jsSplitAux sep cs (c :: acc)

/-- Model of JavaScript `s.split(sep)` for a one-character separator. -/
def jsSplit (sep : Char) (s : String) : List String :=
  jsSplitAux sep s.data []

/-- JS `substringof(needle, hay)` / `String.prototype.includes`:
substring containment test. -/
def containsSub (needle hay : String) : Bool :=
  hay.data.tails.any (fun t => needle.data.isPrefixOf t)

/-- Bin status (`status : String(20)` holding `'active'` / `'inactive'`). -/
inductive Status
  | active
  | inactive
deriving DecidableEq, Repr

/-- Canonical bin entity (`binmaster.WarehouseBins`). -/
structure Bin where
  ID : String
  binNumber : String
  location : String
  capacity : Nat
  currentStock : Nat
  status : Status
  barcode : String
  lastUpdated : String
  createdAt : String
deriving DecidableEq, Repr

/-- The S/4HANA `A_WarehouseStorageBin` record shape as used by the service;
all fields are string-typed in the OData payload, with `""` standing for an
absent/empty field. -/
structure S4Record where
  StorageBin : String
  Warehouse : String
  StorageType : String
  MaximumStorageCapacity : String
  CurrentStock : String
  BlockingIndicator : String
  CreationDate : String
deriving DecidableEq, Repr

/-- Model of `parseInt(field || 0)`: an absent/empty field parses as `0`. -/
def parseField (s : String) : Nat :=
  if s = "" then 0 else strToNat s

/-- `mapS4ToBin` from `srv/warehouse-service.js`: maps an S/4HANA OData
record to the CAP entity format.  `now` stands for
`new Date().toISOString()`. -/
def mapS4ToBin (now : String) (r : S4Record) : Bin :=
  { ID := r.StorageBin
    binNumber := r.StorageBin
    location := jsTrim (r.Warehouse ++ " - " ++ r.StorageType)
    capacity := parseField r.MaximumStorageCapacity
    currentStock := parseField r.CurrentStock
    status := if r.BlockingIndicator = "" then Status.active else Status.inactive
    barcode := r.StorageBin
    lastUpdated := now
    createdAt := if r.CreationDate = "" then now else r.CreationDate }

/-- `mapBinToS4` from `srv/warehouse-service.js`: maps the CAP entity to the
S/4HANA OData format.  `location.split('-')[1]?.trim() || 'BULK'` defaults
the storage type to `"BULK"` when the second segment is absent or
whitespace-only. -/
def mapBinToS4 (b : Bin) : S4Record :=
  let parts := jsSplit '-' b.location
  { StorageBin := b.binNumber
    Warehouse := jsTrim (parts.headD "")
    StorageType :=
      match parts[1]? with
      | some seg => if jsTrim seg = "" then "BULK" else jsTrim seg
      | none => "BULK"
    MaximumStorageCapacity := natToStr b.capacity
    CurrentStock := natToStr b.currentStock
    BlockingIndicator := if b.status = Status.active then "" else "X"
    CreationDate := "" }

theorem parseField_natToStr (n : Nat) : parseField (natToStr n) = n := by
  rw [parseField, if_neg (natToStr_ne_empty n), strToNat_natToStr]

/-- Error outcomes surfaced by the service handlers (`req.error`).  In the
S/4HANA path an update of an absent bin fails because the preliminary GET on
the missing key fails; that failure is modelled as `notFound`. -/
inductive Err
  | notFound
  | stockExceedsCapacity
  | duplicateBinNumber
  | missingField (name : String)
deriving DecidableEq, Repr

/-- Return shape of `getBinStatistics`. -/
structure Statistics where
  totalBins : Nat
  activeBins : Nat
  inactiveBins : Nat
  totalCapacity : Nat
  totalStock : Nat
  utilizationPercentage : ℚ
deriving DecidableEq, Repr

/-- Model of `x.toFixed(2)` followed by `parseFloat`, for non-negative `x`:
rounding half-up to two decimal places. -/
def round2 (x : ℚ) : ℚ := (⌊x * 100 + 1 / 2⌋₊ : ℚ) / 100

/-- `getBinStatistics` from `srv/warehouse-service.js` (identical aggregation
in the local and the S/4HANA-backed implementation): counts, sums via
`reduce`, and the guarded utilization percentage. -/
def binStatistics (bins : List Bin) : Statistics :=
  let totalBins := bins.length
  let activeBins := (bins.filter (fun b => b.status = Status.active)).length
  let inactiveBins := totalBins - activeBins
  let totalCapacity : Nat := bins.foldl (fun sum b => sum + b.capacity) 0
  let totalStock : Nat := bins.foldl (fun sum b => sum + b.currentStock) 0
  let utilizationPercentage : ℚ :=
    if totalCapacity > 0 then round2 ((totalStock : ℚ) / (totalCapacity : ℚ) * 100)
    else 0
  ⟨totalBins, activeBins, inactiveBins, totalCapacity, totalStock,
    utilizationPercentage⟩

/-- A clause of the `$filter` expression built by the `READ` handler:
either the disjunctive `substringof` search over `StorageBin` and
`Warehouse`, or the `BlockingIndicator eq <flag>` equality. -/
inductive FilterClause
  | substrOr (term : String)
  | blockEq (flag : String)
deriving DecidableEq, Repr

/-- The translated source query: `$top`, `$skip`, and the `$filter` clauses
that the handler joins with `and`. -/
structure SourceQuery where
  top : Nat
  skip : Nat
  filter : List FilterClause
deriving DecidableEq, Repr

/-- Query translation performed by the `READ` handler of
`srv/warehouse-service.js`: the search clause is pushed only when the
extracted search term is truthy (non-empty), the status clause only when a
status filter is present; the clauses are joined with `and`. -/
def buildReadQuery (top skip : Nat) (searchTerm : Option String)
    (status : Option Status) : SourceQuery :=
  let searchFilters : List FilterClause :=
    match searchTerm with
    | some s => if s = "" then [] else [FilterClause.substrOr s]
    | none => []
  let statusFilters : List FilterClause :=
    match status with
    | some st =>
      [FilterClause.blockEq (if st = Status.active then "" else "X")]
    | none => []
  { top := top, skip := skip, filter := searchFilters ++ statusFilters }

/-- OData semantics of a single filter clause on an S/4HANA record. -/
def evalClause : FilterClause → S4Record → Bool
  | FilterClause.substrOr t, r =>
    containsSub t r.StorageBin || containsSub t r.Warehouse
  | FilterClause.blockEq f, r => r.BlockingIndicator == f

/-- OData semantics of the whole `$filter` (conjunction of its clauses). -/
def evalFilter (q : SourceQuery) (r : S4Record) : Bool :=
  q.filter.all (fun c => evalClause c r)

/-- Worded from the spec, for comparison with `buildReadQuery`: a
disjunctive substring match across the canonical `binNumber`, `location`
and `barcode` of the record. -/
def specSearchMatch (s : String) (r : S4Record) : Bool :=
  let b := mapS4ToBin "" r
  containsSub s b.binNumber || containsSub s b.location || containsSub s b.barcode

/-- The `READ` handler maps every returned record through `mapS4ToBin`
(`response.d?.results?.map(mapS4ToBin)`), with no further filtering. -/
def listMap (now : String) (records : List S4Record) : List Bin :=
  records.map (mapS4ToBin now)

/-- The `CREATE` handler of the S/4HANA service: validates
`currentStock > capacity` before any write, then maps and posts the record,
echoing back the mapped response.  The first component of the result is the
backing store after the operation. -/
def createBin (now : String) (st : List S4Record) (d : Bin) :
    List S4Record × Except Err Bin :=
  if d.capacity < d.currentStock then (st, Except.error Err.stockExceedsCapacity)
  else
    let s4 := mapBinToS4 d
    (st ++ [s4], Except.ok (mapS4ToBin now s4))

/-- Partial update payload (`req.data` of an `UPDATE` request): each field
is optional; an omitted field is `none`. -/
structure PartialBin where
  binNumber : Option String := none
  location : Option String := none
  capacity : Option Nat := none
  currentStock : Option Nat := none
  status : Option Status := none
  barcode : Option String := none
deriving DecidableEq, Repr

/-- JS object spread `{...currentBin, ...req.data}`: supplied fields
replace, omitted fields retain the current value. -/
def mergeBin (cur : Bin) (p : PartialBin) : Bin :=
  { cur with
    binNumber := p.binNumber.getD cur.binNumber
    location := p.location.getD cur.location
    capacity := p.capacity.getD cur.capacity
    currentStock := p.currentStock.getD cur.currentStock
    status := p.status.getD cur.status
    barcode := p.barcode.getD cur.barcode }

/-- The `UPDATE` handler of the S/4HANA service: reads the current record
first (failing when it is absent), validates the merged stock against the
merged capacity before any write, then patches the merged mapped record and
returns the re-read result. -/
def updateBin (now : String) (st : List S4Record) (id : String)
    (p : PartialBin) : List S4Record × Except Err Bin :=
  match st.find? (fun r => r.StorageBin == id) with
  | none => (st, Except.error Err.notFound)
  | some cur0 =>
    let currentBin := mapS4ToBin now cur0
    let capacity := p.capacity.getD currentBin.capacity
    let currentStock := p.currentStock.getD currentBin.currentStock
    if capacity < currentStock then (st, Except.error Err.stockExceedsCapacity)
    else
      let merged := mergeBin currentBin p
      let s4 := mapBinToS4 merged
      (st.map (fun r => if r.StorageBin == id then s4 else r),
        Except.ok (mapS4ToBin now s4))

/-- State of the frontend create form (`frontend/app/(tabs)/create.tsx`);
numeric fields are held as strings, and the numeric inputs strip
non-digit characters on change. -/
structure CreateForm where
  bin_number : String
  location : String
  capacity : String
  current_stock : String
  status : Status
  barcode : String
deriving DecidableEq, Repr

/-- The per-field error record produced by `validateForm`; an error message
is stored under the key of the offending field. -/
structure FormErrors where
  bin_number : Option String
  location : Option String
  capacity : Option String
  current_stock : Option String
deriving DecidableEq, Repr

/-- `validateForm` from the create screen.  The JS `stock < 0` check can
never fire (the inputs are digit-filtered), so it contributes no error in
this model; the `stock > capacity` check uses `parseInt(x || '0')`. -/
def validateForm (f : CreateForm) : FormErrors :=
  let stock := strToNat (if f.current_stock = "" then "0" else f.current_stock)
  let capacity := strToNat (if f.capacity = "" then "0" else f.capacity)
  { bin_number :=
      if jsTrim f.bin_number = "" then some "Bin number is required" else none
    location :=
      if jsTrim f.location = "" then some "Location is required" else none
    capacity :=
      if f.capacity = "" ∨ strToNat f.capacity ≤ 0 then
        some "Capacity must be greater than 0"
      else none
    current_stock :=
      if capacity < stock then some "Stock cannot exceed capacity" else none }

/-- `validateForm` returns `true` iff no error was recorded. -/
def formValid (e : FormErrors) : Bool :=
  e.bin_number.isNone && e.location.isNone && e.capacity.isNone &&
    e.current_stock.isNone

/-- Body of the POST request issued by `handleSubmit` on success. -/
structure SubmitPayload where
  bin_number : String
  location : String
  capacity : Nat
  current_stock : Nat
  status : Status
  barcode : String
deriving DecidableEq, Repr

/-- `handleSubmit` from the create screen: when `validateForm` reports any
error the function returns before issuing the request (no write is
attempted); otherwise it POSTs the parsed payload. -/
def handleSubmit (f : CreateForm) : Option SubmitPayload :=
  if formValid (validateForm f) then
    some
      { bin_number := f.bin_number
        location := f.location
        capacity := strToNat f.capacity
        current_stock :=
          strToNat (if f.current_stock = "" then "0" else f.current_stock)
        status := f.status
        barcode := f.barcode }
  else none

/-- Create request fields (id and timestamps are assigned by the server). -/
structure CreateFields where
  binNumber : String
  location : String
  capacity : Option Nat
  currentStock : Option Nat
  status : Status
  barcode : String
deriving DecidableEq, Repr

/-- Modelled from the spec: the backend create operation of
`backend/server.py`, which is absent from the sources (only its tests in
`test_result.md` and its frontend callers are present).  Per spec §4.4 it
runs `validateRequired`, then `validate`, then fails with
`DuplicateBinNumber` when a bin with the same `binNumber` already exists
(a lookup prior to the write), and only then writes the new record. -/
def createFacade (now newId : String) (st : List Bin) (d : CreateFields) :
    List Bin × Except Err Bin :=
  if jsTrim d.binNumber = "" then (st, Except.error (Err.missingField "binNumber"))
  else if jsTrim d.location = "" then
    (st, Except.error (Err.missingField "location"))
  else
    match d.capacity with
    | none => (st, Except.error (Err.missingField "capacity"))
    | some cap =>
      if cap < d.currentStock.getD 0 then
        (st, Except.error Err.stockExceedsCapacity)
      else if st.any (fun b => b.binNumber == d.binNumber) then
        (st, Except.error Err.duplicateBinNumber)
      else
        let b : Bin :=
          { ID := newId
            binNumber := d.binNumber
            location := d.location
            capacity := cap
            currentStock := d.currentStock.getD 0
            status := d.status
            barcode := d.barcode
            lastUpdated := now
            createdAt := now }
        (st ++ [b], Except.ok b)

/-- The four sample bins of `db/data/binmaster-WarehouseBins.csv`, also the
statistics scenario of the spec. -/
def sampleBins : List Bin :=
  [{ ID := "550e8400-e29b-41d4-a716-446655440001", binNumber := "BIN-A001",
     location := "Aisle A Row 1", capacity := 1000, currentStock := 750,
     status := Status.active, barcode := "1234567890", lastUpdated := "",
     createdAt := "" },
   { ID := "550e8400-e29b-41d4-a716-446655440002", binNumber := "BIN-A002",
     location := "Aisle A Row 2", capacity := 800, currentStock := 300,
     status := Status.active, barcode := "1234567891", lastUpdated := "",
     createdAt := "" },
   { ID := "550e8400-e29b-41d4-a716-446655440003", binNumber := "BIN-B001",
     location := "Aisle B Row 1", capacity := 1200, currentStock := 1100,
     status := Status.active, barcode := "1234567892", lastUpdated := "",
     createdAt := "" },
   { ID := "550e8400-e29b-41d4-a716-446655440004", binNumber := "BIN-C001",
     location := "Aisle C Row 1", capacity := 500, currentStock := 0,
     status := Status.inactive, barcode := "1234567893", lastUpdated := "",
     createdAt := "" }]

/-- Prefix of a character list up to (exclusive) the first occurrence of
`sep`, together with the remainder after that occurrence; `none` when `sep`
does not occur. -/
def splitFirstAux (sep : Char) : List Char → Option (List Char × List Char)
  | [] => none
  | c :: cs =>
    if c = sep then some ([], cs)
    else (splitFirstAux sep cs).map (fun p => (c :: p.1, p.2))

/-- Worded from the spec, for comparison with `mapBinToS4`: the second
sub-field is "everything after the first occurrence" of the delimiter
(trimmed), defaulting to `"BULK"` when the delimiter is absent or the
remainder is blank. -/
def specSecondSubfield (loc : String) : String :=
  match splitFirstAux '-' loc.data with
  | none => "BULK"
  | some p =>
    if jsTrim (String.mk p.2) = "" then "BULK" else jsTrim (String.mk p.2)

/-- Round-trip counterexample input: a bin whose location is composed with
the `" - "` delimiter but whose barcode differs from its bin number. -/
def c1Bin : Bin :=
  { ID := "B1", binNumber := "B1", location := "WH - BULK",
    capacity := 10, currentStock := 5, status := Status.active,
    barcode := "XYZ", lastUpdated := "", createdAt := "" }

/-- Round-trip witness input: barcode coincides with the bin number. -/
def c1WitnessBin : Bin :=
  { ID := "B1", binNumber := "B1", location := "WH - BULK",
    capacity := 10, currentStock := 5, status := Status.inactive,
    barcode := "B1", lastUpdated := "", createdAt := "" }

/-- A create payload violating the stock/capacity invariant. -/
def c2Bin : Bin :=
  { ID := "B9", binNumber := "B9", location := "WH - BULK",
    capacity := 100, currentStock := 150, status := Status.active,
    barcode := "B9", lastUpdated := "", createdAt := "" }

/-- A stored record used to exercise the update path. -/
def c2Rec : S4Record :=
  { StorageBin := "B1", Warehouse := "WH", StorageType := "BULK",
    MaximumStorageCapacity := "1000", CurrentStock := "750",
    BlockingIndicator := "", CreationDate := "" }

/-- An update payload pushing the stock above the stored capacity. -/
def c2Patch : PartialBin := { currentStock := some 1300 }

/-- A record whose storage type, but not warehouse, contains the search
term `"ZONE"`. -/
def c4Rec : S4Record :=
  { StorageBin := "B1", Warehouse := "WH", StorageType := "ZONE",
    MaximumStorageCapacity := "100", CurrentStock := "50",
    BlockingIndicator := "", CreationDate := "" }

/-- A bin whose location contains two hyphens. -/
def c5Bin : Bin :=
  { ID := "B1", binNumber := "B1", location := "A-B-C",
    capacity := 10, currentStock := 5, status := Status.active,
    barcode := "B1", lastUpdated := "", createdAt := "" }

/-- A partial update supplying only the stock. -/
def c7Patch : PartialBin := { currentStock := some 800 }

/-- Create-form state with every required field left empty. -/
def c8Form : CreateForm :=
  { bin_number := "", location := "", capacity := "",
    current_stock := "0", status := Status.active, barcode := "" }

/-- A source record whose stock exceeds its capacity. -/
def c10Rec : S4Record :=
  { StorageBin := "B2", Warehouse := "W", StorageType := "T",
    MaximumStorageCapacity := "100", CurrentStock := "150",
    BlockingIndicator := "", CreationDate := "" }

/-- An existing bin used to trigger the duplicate check. -/
def c6Existing : Bin :=
  { ID := "id0", binNumber := "BIN-1", location := "WH - BULK",
    capacity := 50, currentStock := 20, status := Status.active,
    barcode := "BIN-1", lastUpdated := "", createdAt := "" }

/-- A valid create payload whose bin number collides with `c6Existing`. -/
def c6Fields : CreateFields :=
  { binNumber := "BIN-1", location := "WH - BULK", capacity := some 10,
    currentStock := some 5, status := Status.active, barcode := "" }

/-- A stored record used to exercise the successful update path. -/
def c7Rec : S4Record :=
  { StorageBin := "B1", Warehouse := "WH", StorageType := "BULK",
    MaximumStorageCapacity := "1000", CurrentStock := "750",
    BlockingIndicator := "", CreationDate := "2024-01-01" }

theorem foldl_add_map (f : Bin → Nat) (l : List Bin) :
    ∀ a, l.foldl (fun sum b => sum + f b) a = a + (l.map f).sum := by
  induction l with
  | nil => simp
  | cons x xs ih =>
    intro a
    simp only [List.foldl_cons, List.map_cons, List.sum_cons, ih,
      Nat.add_assoc]

theorem round2_div_mul (s c : Nat) (hc : 0 < c) :
    round2 ((s : ℚ) / (c : ℚ) * 100) = (((20000 * s + c) / (2 * c) : ℕ) : ℚ) / 100 := by
  have hc0 : ((c : ℚ)) ≠ 0 := by exact_mod_cast hc.ne'
  have hx : (s : ℚ) / (c : ℚ) * 100 * 100 + 1 / 2 =
      ((20000 * s + c : ℕ) : ℚ) / ((2 * c : ℕ) : ℚ) := by
    push_cast
    field_simp
    ring
  rw [round2, hx, Nat.floor_div_eq_div]

theorem binStatistics_utilization (l : List Bin) :
    (binStatistics l).utilizationPercentage =
      (if (l.map (fun b => b.capacity)).sum = 0 then 0
       else round2 ((((l.map (fun b => b.currentStock)).sum : ℕ) : ℚ) /
         (((l.map (fun b => b.capacity)).sum : ℕ) : ℚ) * 100)) := by
  have hcap : l.foldl (fun sum b => sum + b.capacity) 0 =
      (l.map (fun b => b.capacity)).sum := by
    simpa using foldl_add_map (fun b => b.capacity) l 0
  have hstock : l.foldl (fun sum b => sum + b.currentStock) 0 =
      (l.map (fun b => b.currentStock)).sum := by
    simpa using foldl_add_map (fun b => b.currentStock) l 0
  show (if 0 < l.foldl (fun sum b => sum + b.capacity) 0 then
      round2 (((l.foldl (fun sum b => sum + b.currentStock) 0 : ℕ) : ℚ) /
        ((l.foldl (fun sum b => sum + b.capacity) 0 : ℕ) : ℚ) * 100) else 0) = _
  rw [hcap, hstock]
  rcases Nat.eq_zero_or_pos (l.map (fun b => b.capacity)).sum with h0 | h0
  · rw [h0]
    simp
  · rw [if_pos h0, if_neg h0.ne']

theorem mapRoundTrip_fields (now : String) (b : Bin) :
    (mapS4ToBin now (mapBinToS4 b)).binNumber = b.binNumber
    ∧ (mapS4ToBin now (mapBinToS4 b)).capacity = b.capacity
    ∧ (mapS4ToBin now (mapBinToS4 b)).currentStock = b.currentStock
    ∧ (mapS4ToBin now (mapBinToS4 b)).status = b.status
    ∧ (mapS4ToBin now (mapBinToS4 b)).barcode = b.binNumber := by
  refine ⟨rfl, parseField_natToStr b.capacity, parseField_natToStr b.currentStock,
    ?_, rfl⟩
  cases hb : b.status <;>
    simp [mapS4ToBin, mapBinToS4, hb, show ("X" : String) ≠ "" from by decide]

theorem jsSplitAux_splitFirst (sep : Char) :
    ∀ (cs acc : List Char),
      jsSplitAux sep cs acc =
        match splitFirstAux sep cs with
        | none => [String.mk (acc.reverse ++ cs)]
        | some p => String.mk (acc.reverse ++ p.1) :: jsSplitAux sep p.2 [] := by
  intro cs
  induction cs with
  | nil => intro acc; simp [jsSplitAux, splitFirstAux]
  | cons c cs ih =>
    intro acc
    by_cases hc : c = sep
    · simp [jsSplitAux, splitFirstAux, hc]
    · simp only [jsSplitAux, splitFirstAux, if_neg hc, ih (c :: acc)]
      cases h : splitFirstAux sep cs with
      | none => simp
      | some p => simp

theorem splitFirstAux_none (sep : Char) :
    ∀ cs : List Char, splitFirstAux sep cs = none → sep ∉ cs := by
  intro cs
  induction cs with
  | nil => simp
  | cons c cs ih =>
    intro h
    by_cases hc : c = sep
    · simp [splitFirstAux, hc] at h
    · simp only [splitFirstAux, if_neg hc] at h
      have h2 : splitFirstAux sep cs = none := by
        cases h3 : splitFirstAux sep cs with
        | none => rfl
        | some p => rw [h3] at h; simp at h
      simp only [List.mem_cons, not_or]
      exact ⟨fun he => hc he.symm, ih h2⟩

theorem splitFirstAux_some (sep : Char) :
    ∀ cs pre rest, splitFirstAux sep cs = some (pre, rest) →
      pre = cs.takeWhile (fun c => c != sep) ∧ cs = pre ++ sep :: rest := by
  intro cs
  induction cs with
  | nil => intro pre rest h; simp [splitFirstAux] at h
  | cons c cs ih =>
    intro pre rest h
    by_cases hc : c = sep
    · simp only [splitFirstAux, if_pos hc, Option.some_inj] at h
      have hpre : pre = [] := (congrArg Prod.fst h).symm
      have hrest : rest = cs := (congrArg Prod.snd h).symm
      subst hpre
      subst hrest
      constructor
      · rw [List.takeWhile_cons_of_neg (by simp [hc])]
      · simp [hc]
    · simp only [splitFirstAux, if_neg hc] at h
      cases h3 : splitFirstAux sep cs with
      | none => rw [h3] at h; simp at h
      | some p =>
        obtain ⟨pre0, rest0⟩ := p
        rw [h3] at h
        simp only [Option.map_some', Option.some_inj] at h
        have hpre : pre = c :: pre0 := (congrArg Prod.fst h).symm
        have hrest : rest = rest0 := (congrArg Prod.snd h).symm
        subst hpre
        subst hrest
        obtain ⟨ih1, ih2⟩ := ih pre0 rest h3
        constructor
        · rw [List.takeWhile_cons_of_pos (by simp [bne_iff_ne]; exact hc), ← ih1]
        · simp [ih2]

theorem takeWhile_of_not_mem (sep : Char) :
    ∀ cs : List Char, sep ∉ cs → cs.takeWhile (fun c => c != sep) = cs := by
  intro cs
  induction cs with
  | nil => simp
  | cons c cs ih =>
    intro h
    simp only [List.mem_cons, not_or] at h
    rw [List.takeWhile_cons_of_pos (by simp [bne_iff_ne]; exact fun he => h.1 he.symm),
      ih h.2]

/-- The first segment of a JS split is the prefix before the first
occurrence of the separator. -/
theorem jsSplit_head (sep : Char) (s : String) :
    (jsSplit sep s).headD "" =
      String.mk (s.data.takeWhile (fun c => c != sep)) := by
  rw [jsSplit, jsSplitAux_splitFirst]
  cases h : splitFirstAux sep s.data with
  | none =>
    simp [takeWhile_of_not_mem sep s.data (splitFirstAux_none sep s.data h)]
  | some p =>
    obtain ⟨pre, rest⟩ := p
    simp [(splitFirstAux_some sep s.data pre rest h).1]

/-- The second segment of a JS split is the text between the first and the
second occurrence of the separator (all of the remainder when the separator
does not occur again). -/
theorem jsSplit_second (sep : Char) (s : String) :
    (jsSplit sep s)[1]? =
      match splitFirstAux sep s.data with
      | none => none
      | some p => some (String.mk (p.2.takeWhile (fun c => c != sep))) := by
  rw [jsSplit, jsSplitAux_splitFirst]
  cases h : splitFirstAux sep s.data with
  | none => simp
  | some p =>
    obtain ⟨pre, rest⟩ := p
    have : (jsSplitAux sep rest [])[0]? =
        some (String.mk (rest.takeWhile (fun c => c != sep))) := by
      rw [jsSplitAux_splitFirst]
      cases h2 : splitFirstAux sep rest with
      | none =>
        simp [takeWhile_of_not_mem sep rest (splitFirstAux_none sep rest h2)]
      | some q =>
        obtain ⟨pre2, rest2⟩ := q
        simp [(splitFirstAux_some sep rest pre2 rest2 h2).1]
    simpa using this

/-- C1 counterexample: a bin whose location is composed with the `" - "`
delimiter (so it lies within the field coverage named by the claim) but
whose barcode differs from its bin number is not restored by
`mapS4ToBin ∘ mapBinToS4`: the source record has no barcode field, so the
round trip re-derives the barcode from the bin number. -/
theorem C1_counterexample :
    c1Bin.location = "WH" ++ " - " ++ "BULK"
    ∧ (mapS4ToBin "t" (mapBinToS4 c1Bin)).barcode ≠ c1Bin.barcode := by
  decide

/-- C1 (amended): for every bin whose location is composed as warehouse
plus storage type with the `" - "` delimiter, the round trip
`mapS4ToBin ∘ mapBinToS4` preserves `binNumber`, `capacity`,
`currentStock` and `status` exactly; `barcode` is preserved exactly when
it equals `binNumber` (the source record has no distinct barcode field and
the round trip re-derives barcode from the bin number). -/
theorem C1_roundTrip_amended (now : String) (b : Bin)
    (_hcov : ∃ w t, b.location = w ++ " - " ++ t) :
    (mapS4ToBin now (mapBinToS4 b)).binNumber = b.binNumber
    ∧ (mapS4ToBin now (mapBinToS4 b)).capacity = b.capacity
    ∧ (mapS4ToBin now (mapBinToS4 b)).currentStock = b.currentStock
    ∧ (mapS4ToBin now (mapBinToS4 b)).status = b.status
    ∧ (b.barcode = b.binNumber →
        (mapS4ToBin now (mapBinToS4 b)).barcode = b.barcode) := by
  obtain ⟨h1, h2, h3, h4, h5⟩ := mapRoundTrip_fields now b
  exact ⟨h1, h2, h3, h4, fun hbar => h5.trans hbar.symm⟩

/-- C1 witness: the amended round-trip law instantiated twice — the
unconditional four-field preservation at the covered bin `c1Bin`, whose
barcode differs from its bin number, and the full five-field preservation
at the covered bin `c1WitnessBin`, whose barcode equals its bin number. -/
theorem C1_roundTrip_amended_witness :
    ((mapS4ToBin "t" (mapBinToS4 c1Bin)).binNumber = c1Bin.binNumber
      ∧ (mapS4ToBin "t" (mapBinToS4 c1Bin)).capacity = c1Bin.capacity
      ∧ (mapS4ToBin "t" (mapBinToS4 c1Bin)).currentStock = c1Bin.currentStock
      ∧ (mapS4ToBin "t" (mapBinToS4 c1Bin)).status = c1Bin.status)
    ∧ ((mapS4ToBin "t" (mapBinToS4 c1WitnessBin)).binNumber =
          c1WitnessBin.binNumber
      ∧ (mapS4ToBin "t" (mapBinToS4 c1WitnessBin)).capacity =
          c1WitnessBin.capacity
      ∧ (mapS4ToBin "t" (mapBinToS4 c1WitnessBin)).currentStock =
          c1WitnessBin.currentStock
      ∧ (mapS4ToBin "t" (mapBinToS4 c1WitnessBin)).status = c1WitnessBin.status
      ∧ (mapS4ToBin "t" (mapBinToS4 c1WitnessBin)).barcode =
          c1WitnessBin.barcode) :=
  ⟨⟨(C1_roundTrip_amended "t" c1Bin ⟨"WH", "BULK", by decide⟩).1,
    (C1_roundTrip_amended "t" c1Bin ⟨"WH", "BULK", by decide⟩).2.1,
    (C1_roundTrip_amended "t" c1Bin ⟨"WH", "BULK", by decide⟩).2.2.1,
    (C1_roundTrip_amended "t" c1Bin ⟨"WH", "BULK", by decide⟩).2.2.2.1⟩,
   ⟨(C1_roundTrip_amended "t" c1WitnessBin ⟨"WH", "BULK", by decide⟩).1,
    (C1_roundTrip_amended "t" c1WitnessBin ⟨"WH", "BULK", by decide⟩).2.1,
    (C1_roundTrip_amended "t" c1WitnessBin ⟨"WH", "BULK", by decide⟩).2.2.1,
    (C1_roundTrip_amended "t" c1WitnessBin ⟨"WH", "BULK", by decide⟩).2.2.2.1,
    (C1_roundTrip_amended "t" c1WitnessBin ⟨"WH", "BULK", by decide⟩).2.2.2.2
      (by decide)⟩⟩

/-- C2: a create request with `currentStock > capacity`, and an update
request whose merged result has `currentStock > capacity`, fail with the
stock-exceeds-capacity error before any write: the backing store is
returned unchanged. -/
theorem C2_stock_rejected_atomically :
    (∀ (now : String) (st : List S4Record) (d : Bin),
      d.capacity < d.currentStock →
      createBin now st d = (st, Except.error Err.stockExceedsCapacity))
    ∧ (∀ (now : String) (st : List S4Record) (id : String) (p : PartialBin)
        (cur0 : S4Record),
        st.find? (fun r => r.StorageBin == id) = some cur0 →
        p.capacity.getD (mapS4ToBin now cur0).capacity <
          p.currentStock.getD (mapS4ToBin now cur0).currentStock →
        updateBin now st id p = (st, Except.error Err.stockExceedsCapacity)) := by
  constructor
  · intro now st d h
    simp [createBin, h]
  · intro now st id p cur0 hfind h
    simp [updateBin, hfind, h]

/-- C2 witness: the rejection at a concrete over-capacity create payload
and a concrete over-capacity update against a stored record. -/
theorem C2_stock_rejected_atomically_witness :
    createBin "t" [] c2Bin = ([], Except.error Err.stockExceedsCapacity)
    ∧ updateBin "t" [c2Rec] "B1" c2Patch =
        ([c2Rec], Except.error Err.stockExceedsCapacity) :=
  ⟨C2_stock_rejected_atomically.1 "t" [] c2Bin (by decide),
   C2_stock_rejected_atomically.2 "t" [c2Rec] "B1" c2Patch c2Rec (by decide)
     (by decide)⟩

/-- C3: `getBinStatistics` returns the bin count, the count of active
bins, their difference, the capacity and stock sums, and the utilization
percentage `totalStock / totalCapacity * 100` rounded half-up to two
decimal places (`0` when the total capacity is zero); on the four sample
bins it returns `4, 3, 1, 3500, 2150, 61.43`. -/
theorem C3_statistics (bins : List Bin) :
    (binStatistics bins).totalBins = bins.length
    ∧ (binStatistics bins).activeBins =
        bins.countP (fun b => b.status = Status.active)
    ∧ (binStatistics bins).inactiveBins =
        (binStatistics bins).totalBins - (binStatistics bins).activeBins
    ∧ (binStatistics bins).totalCapacity = (bins.map (fun b => b.capacity)).sum
    ∧ (binStatistics bins).totalStock = (bins.map (fun b => b.currentStock)).sum
    ∧ (binStatistics bins).utilizationPercentage =
        (if (bins.map (fun b => b.capacity)).sum = 0 then 0
         else round2 ((((bins.map (fun b => b.currentStock)).sum : ℕ) : ℚ) /
           (((bins.map (fun b => b.capacity)).sum : ℕ) : ℚ) * 100))
    ∧ (binStatistics sampleBins).totalBins = 4
    ∧ (binStatistics sampleBins).activeBins = 3
    ∧ (binStatistics sampleBins).inactiveBins = 1
    ∧ (binStatistics sampleBins).totalCapacity = 3500
    ∧ (binStatistics sampleBins).totalStock = 2150
    ∧ (binStatistics sampleBins).utilizationPercentage = 6143 / 100 := by
  have hcap : ∀ l : List Bin,
      l.foldl (fun sum b => sum + b.capacity) 0 = (l.map (fun b => b.capacity)).sum :=
    fun l => by simpa using foldl_add_map (fun b => b.capacity) l 0
  have hstock : ∀ l : List Bin,
      l.foldl (fun sum b => sum + b.currentStock) 0 =
        (l.map (fun b => b.currentStock)).sum :=
    fun l => by simpa using foldl_add_map (fun b => b.currentStock) l 0
  have hsample : (binStatistics sampleBins).utilizationPercentage = 6143 / 100 := by
    rw [binStatistics_utilization sampleBins]
    rw [show (sampleBins.map (fun b => b.capacity)).sum = 3500 from by decide]
    rw [show (sampleBins.map (fun b => b.currentStock)).sum = 2150 from by decide]
    rw [if_neg (by norm_num), round2_div_mul 2150 3500 (by norm_num)]
    norm_num
  refine ⟨rfl, ?_, rfl, hcap bins, hstock bins, binStatistics_utilization bins,
    by decide, by decide, by decide, by decide, by decide, hsample⟩
  show (bins.filter (fun b => b.status = Status.active)).length = _
  rw [List.countP_eq_length_filter]

/-- C4 counterexample: the built search filter is not a disjunctive
substring match across `binNumber`, `location` and `barcode`: the term
`"ZONE"` occurs in the canonical location of `c4Rec` (via its storage
type), yet the translated filter rejects the record, because the handler
only matches `StorageBin` and `Warehouse`. -/
theorem C4_counterexample :
    evalFilter (buildReadQuery 100 0 (some "ZONE") none) c4Rec = false
    ∧ specSearchMatch "ZONE" c4Rec = true
    ∧ containsSub "ZONE" (mapS4ToBin "" c4Rec).location = true := by
  decide

/-- C4 (amended): the translated filter is the logical AND of (a) when
search is present and non-empty, a disjunctive substring match across
`binNumber` (`StorageBin`) and the warehouse sub-field only — the
storage-type part of the location and the barcode field are not searched —
and (b) when status is present, an equality predicate on the
status-derived blocking flag; an empty search string contributes no search
filter, so the query built for `search = ""` coincides with the query
built without a search term. -/
theorem C4_queryFilter_amended (top skip : Nat) (s : String) (st : Status)
    (r : S4Record) :
    buildReadQuery top skip (some "") (some st) =
      buildReadQuery top skip none (some st)
    ∧ buildReadQuery top skip (some "") none = buildReadQuery top skip none none
    ∧ (s ≠ "" →
        evalFilter (buildReadQuery top skip (some s) (some st)) r =
          ((containsSub s r.StorageBin || containsSub s r.Warehouse) &&
            (r.BlockingIndicator == (if st = Status.active then "" else "X"))))
    ∧ evalFilter (buildReadQuery top skip none (some st)) r =
        (r.BlockingIndicator == (if st = Status.active then "" else "X"))
    ∧ (s ≠ "" →
        evalFilter (buildReadQuery top skip (some s) none) r =
          (containsSub s r.StorageBin || containsSub s r.Warehouse)) := by
  refine ⟨rfl, rfl, fun hs => ?_, ?_, fun hs => ?_⟩
  · simp [buildReadQuery, evalFilter, evalClause, if_neg hs]
  · simp [buildReadQuery, evalFilter, evalClause]
  · simp [buildReadQuery, evalFilter, evalClause, if_neg hs]

/-- C4 witness: the amended filter law at a concrete non-empty search
term, status filter and record. -/
theorem C4_queryFilter_amended_witness :
    evalFilter (buildReadQuery 100 0 (some "B1") (some Status.active)) c4Rec =
      ((containsSub "B1" c4Rec.StorageBin || containsSub "B1" c4Rec.Warehouse) &&
        (c4Rec.BlockingIndicator ==
          (if Status.active = Status.active then "" else "X"))) :=
  (C4_queryFilter_amended 100 0 "B1" Status.active c4Rec).2.2.1 (by decide)

/-- C5 counterexample: `mapBinToS4` does not put "everything after the
first occurrence" of the delimiter into the second sub-field: for the
location `"A-B-C"` it produces storage type `"B"`, not `"B-C"`. -/
theorem C5_counterexample :
    (mapBinToS4 c5Bin).StorageType = "B"
    ∧ specSecondSubfield c5Bin.location = "B-C"
    ∧ (mapBinToS4 c5Bin).StorageType ≠ specSecondSubfield c5Bin.location := by
  decide

/-- C5 (amended): `mapBinToS4` decomposes the location on the hyphen
character: the first sub-field is the trimmed prefix before the first
hyphen, the second sub-field is the trimmed segment between the first and
the second hyphen (everything after a second hyphen is dropped), defaulting
to `"BULK"` when the delimiter is absent or the segment is blank; status is
encoded as blocking indicator `""` for active and `"X"` for inactive, and
the numeric capacity and stock fields are stringified. -/
theorem C5_toSource_amended (b : Bin) :
    (mapBinToS4 b).StorageBin = b.binNumber
    ∧ (mapBinToS4 b).Warehouse =
        jsTrim (String.mk (b.location.data.takeWhile (fun c => c != '-')))
    ∧ (splitFirstAux '-' b.location.data = none →
        (mapBinToS4 b).StorageType = "BULK")
    ∧ (∀ pre rest, splitFirstAux '-' b.location.data = some (pre, rest) →
        (mapBinToS4 b).StorageType =
          (if jsTrim (String.mk (rest.takeWhile (fun c => c != '-'))) = ""
           then "BULK"
           else jsTrim (String.mk (rest.takeWhile (fun c => c != '-')))))
    ∧ (mapBinToS4 b).MaximumStorageCapacity = natToStr b.capacity
    ∧ (mapBinToS4 b).CurrentStock = natToStr b.currentStock
    ∧ (mapBinToS4 b).BlockingIndicator =
        (if b.status = Status.active then "" else "X") := by
  refine ⟨rfl, ?_, ?_, ?_, rfl, rfl, rfl⟩
  · show jsTrim ((jsSplit '-' b.location).headD "") = _
    rw [jsSplit_head]
  · intro h
    show (match (jsSplit '-' b.location)[1]? with
      | some seg => if jsTrim seg = "" then "BULK" else jsTrim seg
      | none => "BULK") = "BULK"
    rw [jsSplit_second, h]
  · intro pre rest h
    show (match (jsSplit '-' b.location)[1]? with
      | some seg => if jsTrim seg = "" then "BULK" else jsTrim seg
      | none => "BULK") = _
    rw [jsSplit_second, h]

/-- C5 witness: the amended decomposition law at the concrete location
`"A-B-C"`, whose remainder after the first hyphen is `"B-C"` and whose
second sub-field is therefore the segment `"B"`. -/
theorem C5_toSource_amended_witness :
    (mapBinToS4 c5Bin).StorageType =
      (if jsTrim (String.mk ((['B', '-', 'C'] : List Char).takeWhile
          (fun c => c != '-'))) = ""
       then "BULK"
       else jsTrim (String.mk ((['B', '-', 'C'] : List Char).takeWhile
          (fun c => c != '-')))) :=
  (C5_toSource_amended c5Bin).2.2.2.1 ['A'] ['B', '-', 'C'] (by decide)

/-- C6: a create request whose bin number equals the bin number of an
already-existing bin fails with the duplicate-bin-number error, detected
by a lookup over the existing bins prior to the write (the store is
returned unchanged). -/
theorem C6_duplicate_create (now newId : String) (st : List Bin)
    (d : CreateFields) (cap : Nat)
    (h1 : jsTrim d.binNumber ≠ "") (h2 : jsTrim d.location ≠ "")
    (hcap : d.capacity = some cap) (h3 : d.currentStock.getD 0 ≤ cap)
    (hdup : st.any (fun b => b.binNumber == d.binNumber) = true) :
    createFacade now newId st d = (st, Except.error Err.duplicateBinNumber) := by
  simp [createFacade, h1, h2, hcap, Nat.not_lt.2 h3, hdup]

/-- C6 witness: the duplicate rejection at a concrete store holding a bin
with the same bin number as the create payload. -/
theorem C6_duplicate_create_witness :
    createFacade "t" "id1" [c6Existing] c6Fields =
      ([c6Existing], Except.error Err.duplicateBinNumber) :=
  C6_duplicate_create "t" "id1" [c6Existing] c6Fields 10 (by decide) (by decide)
    rfl (by decide) (by decide)

/-- C7: `update` reads the current record first and fails (without
writing) when it is absent; otherwise every supplied field replaces the
current value and every omitted field retains it, validation runs on the
merged result, the merged and mapped record is written in place of the
stored one, and the returned bin carries the refreshed `lastUpdated`
timestamp.  (In the S/4HANA handler the absent case surfaces as the failed
preliminary GET on the missing key, modelled as `notFound`.) -/
theorem C7_update_semantics (now : String) (st : List S4Record) (id : String)
    (p : PartialBin) :
    (st.find? (fun r => r.StorageBin == id) = none →
      updateBin now st id p = (st, Except.error Err.notFound))
    ∧ (∀ cur0, st.find? (fun r => r.StorageBin == id) = some cur0 →
        p.currentStock.getD (mapS4ToBin now cur0).currentStock ≤
          p.capacity.getD (mapS4ToBin now cur0).capacity →
        (updateBin now st id p).1 =
          st.map (fun r => if r.StorageBin == id
            then mapBinToS4 (mergeBin (mapS4ToBin now cur0) p) else r)
        ∧ ∀ b, (updateBin now st id p).2 = Except.ok b →
            b.binNumber = p.binNumber.getD (mapS4ToBin now cur0).binNumber
            ∧ b.capacity = p.capacity.getD (mapS4ToBin now cur0).capacity
            ∧ b.currentStock =
                p.currentStock.getD (mapS4ToBin now cur0).currentStock
            ∧ b.status = p.status.getD (mapS4ToBin now cur0).status
            ∧ b.lastUpdated = now) := by
  constructor
  · intro h
    simp [updateBin, h]
  · intro cur0 hfind hle
    have hnotlt : ¬ (p.capacity.getD (mapS4ToBin now cur0).capacity <
        p.currentStock.getD (mapS4ToBin now cur0).currentStock) :=
      Nat.not_lt.2 hle
    constructor
    · simp [updateBin, hfind, hnotlt]
    · intro b hb
      have hb2 : (Except.ok
          (mapS4ToBin now (mapBinToS4 (mergeBin (mapS4ToBin now cur0) p))) :
            Except Err Bin) = Except.ok b := by
        rw [← hb]
        simp [updateBin, hfind, hnotlt]
      have hb3 : b =
          mapS4ToBin now (mapBinToS4 (mergeBin (mapS4ToBin now cur0) p)) := by
        injection hb2 with h2
        exact h2.symm
      subst hb3
      obtain ⟨f1, f2, f3, f4, _f5⟩ :=
        mapRoundTrip_fields now (mergeBin (mapS4ToBin now cur0) p)
      exact ⟨f1, f2, f3, f4, rfl⟩

/-- C7 witness: the successful-update law at a concrete stored record and
a concrete stock-only partial payload. -/
theorem C7_update_semantics_witness :
    (updateBin "t" [c7Rec] "B1" c7Patch).1 =
      [c7Rec].map (fun r => if r.StorageBin == "B1"
        then mapBinToS4 (mergeBin (mapS4ToBin "t" c7Rec) c7Patch) else r) :=
  (((C7_update_semantics "t" [c7Rec] "B1" c7Patch).2 c7Rec (by decide)
    (by decide))).1

/-- C8: a create submission in which `binNumber`, `location` or `capacity`
is absent or empty fails client-side in `validateForm`, with the error
recorded under the key of the absent field, and `handleSubmit` returns
before issuing the request, so no write is attempted. -/
theorem C8_required_fields (f : CreateForm) :
    (jsTrim f.bin_number = "" →
      (validateForm f).bin_number = some "Bin number is required"
      ∧ handleSubmit f = none)
    ∧ (jsTrim f.location = "" →
      (validateForm f).location = some "Location is required"
      ∧ handleSubmit f = none)
    ∧ (f.capacity = "" →
      (validateForm f).capacity = some "Capacity must be greater than 0"
      ∧ handleSubmit f = none) := by
  refine ⟨fun h => ⟨?_, ?_⟩, fun h => ⟨?_, ?_⟩, fun h => ⟨?_, ?_⟩⟩
  · simp [validateForm, h]
  · simp [handleSubmit, formValid, validateForm, h]
  · simp [validateForm, h]
  · simp [handleSubmit, formValid, validateForm, h]
  · simp [validateForm, h]
  · simp [handleSubmit, formValid, validateForm, h]

/-- C8 witness: the three rejections at a concrete form whose required
fields are all empty. -/
theorem C8_required_fields_witness :
    ((validateForm c8Form).bin_number = some "Bin number is required"
      ∧ handleSubmit c8Form = none)
    ∧ ((validateForm c8Form).location = some "Location is required"
      ∧ handleSubmit c8Form = none)
    ∧ ((validateForm c8Form).capacity = some "Capacity must be greater than 0"
      ∧ handleSubmit c8Form = none) :=
  ⟨(C8_required_fields c8Form).1 (by decide),
   (C8_required_fields c8Form).2.1 (by decide),
   (C8_required_fields c8Form).2.2 (by decide)⟩

/-- C9: every bin produced by `mapS4ToBin` has `id = binNumber = barcode`,
all equal to the source record's `StorageBin`; consequently, over any
mapped bin list, lookup by id and lookup by barcode give the same result
for every key. -/
theorem C9_id_binNumber_barcode (now : String) (r : S4Record) :
    (mapS4ToBin now r).ID = (mapS4ToBin now r).binNumber
    ∧ (mapS4ToBin now r).binNumber = (mapS4ToBin now r).barcode
    ∧ (mapS4ToBin now r).barcode = r.StorageBin
    ∧ ∀ (records : List S4Record) (key : String),
        (listMap now records).find? (fun b => b.ID == key) =
          (listMap now records).find? (fun b => b.barcode == key) := by
  refine ⟨rfl, rfl, rfl, ?_⟩
  intro records key
  induction records with
  | nil => rfl
  | cons r0 rs ih =>
    show ((mapS4ToBin now r0 :: listMap now rs).find? (fun b => b.ID == key)) =
      ((mapS4ToBin now r0 :: listMap now rs).find? (fun b => b.barcode == key))
    simp only [List.find?]
    have hEq : ((mapS4ToBin now r0).barcode == key) =
        ((mapS4ToBin now r0).ID == key) := rfl
    rw [hEq]
    cases hc : ((mapS4ToBin now r0).ID == key) with
    | true => rfl
    | false => exact ih

/-- C10: `mapS4ToBin` performs no stock-versus-capacity validation: a
source record whose parsed stock exceeds its parsed capacity maps to a bin
with `currentStock > capacity`, is passed through unchanged by the list
mapping, and drives the computed utilization percentage above 100. -/
theorem C10_no_mapping_validation :
    (∀ (now : String) (r : S4Record),
      parseField r.MaximumStorageCapacity < parseField r.CurrentStock →
      (mapS4ToBin now r).capacity < (mapS4ToBin now r).currentStock)
    ∧ listMap "" [c10Rec] = [mapS4ToBin "" c10Rec]
    ∧ (mapS4ToBin "" c10Rec).capacity < (mapS4ToBin "" c10Rec).currentStock
    ∧ 100 < (binStatistics (listMap "" [c10Rec])).utilizationPercentage := by
  refine ⟨fun now r h => h, rfl, by decide, ?_⟩
  rw [binStatistics_utilization]
  rw [show ((listMap "" [c10Rec]).map (fun b => b.capacity)).sum = 100 from by
    decide]
  rw [show ((listMap "" [c10Rec]).map (fun b => b.currentStock)).sum = 150 from by
    decide]
  rw [if_neg (by norm_num), round2_div_mul 150 100 (by norm_num)]
  norm_num

/-- C10 witness: the unchecked mapping at a concrete record with stock 150
against capacity 100. -/
theorem C10_no_mapping_validation_witness :
    (mapS4ToBin "" c10Rec).capacity < (mapS4ToBin "" c10Rec).currentStock :=
  C10_no_mapping_validation.1 "" c10Rec (by decide)

end BinMaster
